import Mathlib

/-!
# Shallow embedding of `xml-pretty` (src/src/main.rs)

The tool is an orchestration shell: it resolves an input source (file path or
stdin), an output destination (explicit path, replace, or stdout), formatting
options, and a mode (format or lint), then delegates parsing and rendering to
the external `xmlem` collaborator, which this development treats as an opaque
pair of operations `parse : String → Option Doc` and
`render : Config → Doc → String` carried by an explicit `World`.

The embedding below mirrors `main`, `prettify_file`, `prettify_stdin` and
`prettify` from src/src/main.rs.  Effects are made explicit: the `World`
records what the environment would answer (terminal detection, file opens and
reads, stdin contents, write success), and the result of a run is an
`Outcome` recording the exit status, diagnostics printed to stderr, the
`anyhow` error-context chain, text printed to stdout, file writes performed,
file handles opened, and whether stdin was read.
-/

namespace XmlPretty

/-- Parsed command-line arguments, mirroring `struct Args` in src/src/main.rs
(the `help` flag is handled by the argument parser itself and is out of
scope). -/
structure Args where
  xml_document_path : Option String
  output_path : Option String
  is_replace : Bool
  lint_mode : Bool
  indent : Option Nat
  end_pad : Option Nat
  max_line_length : Option Nat
  uses_hex_entities : Bool
  is_no_text_indent : Bool
deriving Repr

/-- `display::EntityMode` of the external collaborator: named/standard entity
encoding or numeric hexadecimal encoding. -/
inductive EntityMode where
  | Standard
  | Hex
deriving DecidableEq, Repr

/-- The configuration surface of the external collaborator's renderer: exactly
the five fields `prettify` (src/src/main.rs lines 188-199) sets on
`display::Config`. -/
structure Config where
  indent : Nat
  end_pad : Nat
  max_line_length : Nat
  entity_mode : EntityMode
  indent_text_nodes : Bool
deriving DecidableEq, Repr

/-- `display::Config::default_pretty()` of the external collaborator.  Every
field is overridden by `prettify` before the config reaches the renderer, so
the base values are irrelevant to every run; the documented defaults are used
as the base. -/
def Config.default_pretty : Config :=
  { indent := 2
    end_pad := 1
    max_line_length := 120
    entity_mode := EntityMode.Standard
    indent_text_nodes := true }

/-- Builder method `.indent(n)` on `display::Config`. -/
def Config.withIndent (c : Config) (n : Nat) : Config := { c with indent := n }

/-- Builder method `.end_pad(n)` on `display::Config`. -/
def Config.withEndPad (c : Config) (n : Nat) : Config := { c with end_pad := n }

/-- Builder method `.max_line_length(n)` on `display::Config`. -/
def Config.withMaxLineLength (c : Config) (n : Nat) : Config :=
  { c with max_line_length := n }

/-- Builder method `.entity_mode(m)` on `display::Config`. -/
def Config.withEntityMode (c : Config) (m : EntityMode) : Config :=
  { c with entity_mode := m }

/-- Builder method `.indent_text_nodes(b)` on `display::Config`. -/
def Config.withIndentTextNodes (c : Config) (b : Bool) : Config :=
  { c with indent_text_nodes := b }

/-- The environment of one invocation.  `Doc` is the opaque parsed document
type owned by the external collaborator.  `fsOpen` answers `File::open`
followed by the collaborator reading the whole handle (`none` = open fails);
`fsRead` answers `std::fs::read_to_string` on the same path through an
independent handle (`none` = read fails); `stdinRead` answers
`read_to_string` on locked stdin (`none` = read fails); `fsWriteOk` says
whether `std::fs::write` to a path succeeds. -/
structure World (Doc : Type) where
  stdin_is_terminal : Bool
  fsOpen : String → Option String
  fsRead : String → Option String
  stdinRead : Option String
  fsWriteOk : String → Bool
  parse : String → Option Doc
  render : Config → Doc → String

/-- Everything one invocation does that the caller can observe:
`exitOk` is the process outcome (`Ok(())` vs `Err`), `stderrLines` the
diagnostics printed by `eprintln!`, `errMsg` the `anyhow` error context chain
(outermost context first) when the run returns `Err`, `stdoutText` the text
emitted to stdout, `fileWrites` the `(path, contents)` pairs written with
`std::fs::write`, `opens` the paths on which a file handle was opened, and
`stdinWasRead` whether a read of the stdin stream was attempted. -/
structure Outcome where
  exitOk : Bool
  stderrLines : List String
  errMsg : Option (List String)
  stdoutText : Option String
  fileWrites : List (String × String)
  opens : List String
  stdinWasRead : Bool
deriving DecidableEq, Repr

/-- The outcome of a run that did nothing observable and succeeded. -/
def Outcome.clean : Outcome :=
  { exitOk := true
    stderrLines := []
    errMsg := none
    stdoutText := none
    fileWrites := []
    opens := []
    stdinWasRead := false }

/-- The renderer configuration built by `prettify` (src/src/main.rs lines
188-199): `default_pretty()` with each field overridden, absent options
replaced by `unwrap_or` defaults 2, 1 and 120. -/
def configFor (indent end_pad max_line_length : Option Nat)
    (uses_hex_entities indent_text_nodes : Bool) : Config :=
  ((((Config.default_pretty.withIndent
      (indent.getD 2)).withEndPad
      (end_pad.getD 1)).withMaxLineLength
      (max_line_length.getD 120)).withEntityMode
      (if uses_hex_entities then EntityMode.Hex else EntityMode.Standard)).withIndentTextNodes
      indent_text_nodes

/-- `prettify` (src/src/main.rs lines 180-200): render the parsed document
with the resolved configuration. -/
def prettify {Doc : Type} (w : World Doc) (doc : Doc)
    (indent end_pad max_line_length : Option Nat)
    (uses_hex_entities indent_text_nodes : Bool) : String :=
  w.render (configFor indent end_pad max_line_length uses_hex_entities indent_text_nodes) doc

/-- `prettify_file` (src/src/main.rs lines 129-152): open the file
(`File::open`), read the same path again with `read_to_string` for the
original text, parse the opened handle's contents (`Document::from_file`),
and return `(rendered, original)`.  Errors are `anyhow` context chains. -/
def prettify_file {Doc : Type} (w : World Doc) (path : String)
    (indent end_pad max_line_length : Option Nat)
    (uses_hex_entities indent_text_nodes : Bool) :
    Except (List String) (String × String) :=
  match w.fsOpen path with
  | none => Except.error ["io error opening file"]
  | some handleContents =>
    match w.fsRead path with
    | none => Except.error ["Failed to read file '" ++ path ++ "'", "io read error"]
    | some contents =>
      match w.parse handleContents with
      | none => Except.error ["parse error"]
      | some doc =>
        Except.ok
          (prettify w doc indent end_pad max_line_length uses_hex_entities indent_text_nodes,
           contents)

/-- `prettify_stdin` (src/src/main.rs lines 154-178): read all of stdin into a
buffer, parse the buffer (`Document::from_str`), and return
`(rendered, buffer)` — the single buffer serves as both parser input and the
retained original. -/
def prettify_stdin {Doc : Type} (w : World Doc)
    (indent end_pad max_line_length : Option Nat)
    (uses_hex_entities indent_text_nodes : Bool) :
    Except (List String) (String × String) :=
  match w.stdinRead with
  | none => Except.error ["Failed to read from stdin", "io read error"]
  | some buffer =>
    match w.parse buffer with
    | none => Except.error ["parse error"]
    | some doc =>
      Except.ok
        (prettify w doc indent end_pad max_line_length uses_hex_entities indent_text_nodes,
         buffer)

/-- Input-source resolution (src/src/main.rs lines 59-67): a supplied path
wins; otherwise an interactive terminal on stdin is a usage condition
(diagnostics on stderr, successful exit), else stdin is the source. -/
def resolveInput {Doc : Type} (w : World Doc) (args : Args) :
    Except (List String) (Option String) :=
  match args.xml_document_path with
  | some path => Except.ok (some path)
  | none =>
    if w.stdin_is_terminal then
      Except.error
        ["ERROR: No XML document provided.", "Run with -h for usage information."]
    else
      Except.ok none

/-- Output-destination resolution (src/src/main.rs lines 69-78): with
`--replace` the destination is the input path (a usage condition when the
input is stdin); otherwise the explicit `--output-path`, which may be absent
(stdout). -/
def resolveOutput (args : Args) (input_path : Option String) :
    Except (List String) (Option String) :=
  if args.is_replace then
    match input_path with
    | some p => Except.ok (some p)
    | none => Except.error ["ERROR: cannot replace 'file' when provided stdin data."]
  else
    Except.ok args.output_path

/-- Acquisition and transformation (src/src/main.rs lines 80-102): dispatch
to `prettify_file` or `prettify_stdin` according to the resolved input. -/
def acquire {Doc : Type} (w : World Doc) (args : Args) (input_path : Option String) :
    Except (List String) (String × String) :=
  match input_path with
  | some p =>
    prettify_file w p args.indent args.end_pad args.max_line_length
      args.uses_hex_entities (!args.is_no_text_indent)
  | none =>
    prettify_stdin w args.indent args.end_pad args.max_line_length
      args.uses_hex_entities (!args.is_no_text_indent)

/-- The `with_context` wrapper `main` puts around acquisition failures
(src/src/main.rs lines 89 and 101). -/
def errCtx : Option String → String
  | some p => "Failed to prettify '" ++ p ++ "'"
  | none => "Failed to prettify from stdin"

/-- File handles opened on the way to acquisition: `prettify_file` opens its
path first thing; the stdin branch opens none. -/
def opensFor : Option String → List String
  | some p => [p]
  | none => []

/-- The identity of the input as the lint diagnostic renders it
(src/src/main.rs lines 110-114). -/
def lintIdent : Option String → String
  | some p => "at path: `" ++ p ++ "`"
  | none => "from stdin"

/-- Lint comparison and output delivery (src/src/main.rs lines 104-126): in
lint mode compare rendered and original texts by exact string equality and
never deliver; otherwise write the rendered text as the complete contents of
the resolved path, or print it followed by a newline to stdout. -/
def finish {Doc : Type} (w : World Doc) (args : Args)
    (input_path output_path : Option String) (formatted original : String) : Outcome :=
  if args.lint_mode then
    if formatted = original then
      { Outcome.clean with
        opens := opensFor input_path
        stdinWasRead := input_path.isNone }
    else
      { Outcome.clean with
        exitOk := false
        errMsg := some ["xml-pretty --lint failed for document " ++ lintIdent input_path]
        opens := opensFor input_path
        stdinWasRead := input_path.isNone }
  else
    match output_path with
    | some path =>
      if w.fsWriteOk path then
        { Outcome.clean with
          fileWrites := [(path, formatted)]
          opens := opensFor input_path
          stdinWasRead := input_path.isNone }
      else
        { Outcome.clean with
          exitOk := false
          errMsg := some ["Failed to write to '" ++ path ++ "'", "io write error"]
          opens := opensFor input_path
          stdinWasRead := input_path.isNone }
    | none =>
      { Outcome.clean with
        stdoutText := some (formatted ++ "\n")
        opens := opensFor input_path
        stdinWasRead := input_path.isNone }

/-- `main` (src/src/main.rs lines 56-127): resolve the input source, resolve
the output destination, acquire and transform the document, then lint or
deliver.  Usage conditions exit successfully with diagnostics on stderr
before any file handle is opened or any stream is read; acquisition failures
abort with the input identity as the outermost error context. -/
def main {Doc : Type} (w : World Doc) (args : Args) : Outcome :=
  match resolveInput w args with
  | Except.error msgs => { Outcome.clean with stderrLines := msgs }
  | Except.ok input_path =>
    match resolveOutput args input_path with
    | Except.error msgs => { Outcome.clean with stderrLines := msgs }
    | Except.ok output_path =>
      match acquire w args input_path with
      | Except.error e =>
        { Outcome.clean with
          exitOk := false
          errMsg := some (errCtx input_path :: e)
          opens := opensFor input_path
          stdinWasRead := input_path.isNone }
      | Except.ok (formatted, original) =>
        finish w args input_path output_path formatted original

/-! ## Concrete environments used to instantiate the theorems

The collaborator is opaque, so witnesses supply small concrete instances with
`Doc := String`.  `wBasic` uses an identity collaborator (parse succeeds,
render returns the text unchanged), so rendered and original coincide.
`wConst` uses a constant renderer, for which render-after-parse is a fixed
point.  `wProbe` renders a marker that reveals the `max_line_length` value the
renderer received. -/

/-- Identity collaborator: one file `a.xml` containing `<a/>`, stdin holding
`<a/>`, no terminal, all writes succeed. -/
def wBasic : World String :=
  { stdin_is_terminal := false
    fsOpen := fun p => if p = "a.xml" then some "<a/>" else none
    fsRead := fun p => if p = "a.xml" then some "<a/>" else none
    stdinRead := some "<a/>"
    fsWriteOk := fun _ => true
    parse := fun s => some s
    render := fun _ s => s }

/-- `wBasic` with an interactive terminal on stdin. -/
def wTerm : World String := { wBasic with stdin_is_terminal := true }

/-- Constant-render collaborator: every document renders to `<c/>`, so the
rendered text is a render fixed point; files `in.xml` (raw input) and
`out.xml` (holding the rendered text `<c/>`). -/
def wConst : World String :=
  { stdin_is_terminal := false
    fsOpen := fun p =>
      if p = "in.xml" then some "<raw>" else if p = "out.xml" then some "<c/>" else none
    fsRead := fun p =>
      if p = "in.xml" then some "<raw>" else if p = "out.xml" then some "<c/>" else none
    stdinRead := none
    fsWriteOk := fun _ => true
    parse := fun s => some s
    render := fun _ _ => "<c/>" }

/-- Probe collaborator: the renderer reports whether it received
`max_line_length = 0`. -/
def wProbe : World String :=
  { stdin_is_terminal := false
    fsOpen := fun p => if p = "a.xml" then some "<a/>" else none
    fsRead := fun p => if p = "a.xml" then some "<a/>" else none
    stdinRead := some "<a/>"
    fsWriteOk := fun _ => true
    parse := fun s => some s
    render := fun cfg _ => if cfg.max_line_length = 0 then "mll-zero" else "mll-pos" }

/-- Lint run on `a.xml` with `--output-path out.xml` also supplied. -/
def argsLintW : Args := ⟨some "a.xml", some "out.xml", false, true, none, none, none, false, false⟩

/-- No positional path, `--replace` set. -/
def argsUsageW : Args := ⟨none, none, true, false, none, none, none, false, false⟩

/-- `--replace` together with `--output-path other.xml`. -/
def argsReplaceW : Args := ⟨some "in.xml", some "other.xml", true, false, none, none, none, false, false⟩

/-- Format run on a missing file. -/
def argsMissingW : Args := ⟨some "missing.xml", none, false, false, none, none, none, false, false⟩

/-- Format run on `a.xml`, output to stdout. -/
def argsStdoutW : Args := ⟨some "a.xml", none, false, false, none, none, none, false, false⟩

/-- Format run on `in.xml` writing to `out.xml`. -/
def argsFmtW : Args := ⟨some "in.xml", some "out.xml", false, false, none, none, none, false, false⟩

/-- Lint run on `out.xml`. -/
def argsLintOutW : Args := ⟨some "out.xml", none, false, true, none, none, none, false, false⟩

/-- Format run on `a.xml` with `-l 0` (max line length zero), output to stdout. -/
def argsZeroW : Args := ⟨some "a.xml", none, false, false, none, none, some 0, false, false⟩

/-- Replace run on `a.xml`. -/
def argsReplRunW : Args := ⟨some "a.xml", none, true, false, none, none, none, false, false⟩

/-! ## Theorems -/

/-- C1: In lint mode, the rendered text is compared to the original raw text
by exact string equality; if they are equal the invocation succeeds and
writes no output, and if they are not equal the invocation fails with a
diagnostic naming the input (the file path, or "from stdin" when no path was
given) and never writes to the output destination, even when `--output-path`
or `--replace` was specified. -/
theorem lint_mode_exact_compare_never_writes {Doc : Type} (w : World Doc) (args : Args)
    (ip op : Option String) (f o : String)
    (hlint : args.lint_mode = true)
    (hin : resolveInput w args = Except.ok ip)
    (hout : resolveOutput args ip = Except.ok op)
    (hacq : acquire w args ip = Except.ok (f, o)) :
    (main w args).fileWrites = [] ∧ (main w args).stdoutText = none ∧
    (f = o → (main w args).exitOk = true ∧ (main w args).errMsg = none) ∧
    (f ≠ o → (main w args).exitOk = false ∧
      (main w args).errMsg =
        some ["xml-pretty --lint failed for document " ++ lintIdent ip]) := by
  have hmain : main w args = finish w args ip op f o := by
    simp only [main, hin, hout, hacq]
  rw [hmain]
  by_cases h : f = o <;> simp [finish, hlint, h, Outcome.clean]

/-- C1 witness: concrete lint invocation on `a.xml` with the identity
collaborator, `--output-path` supplied and ignored. -/
theorem lint_mode_exact_compare_never_writes_witness :
    (main wBasic argsLintW).fileWrites = [] ∧
    (main wBasic argsLintW).stdoutText = none ∧
    ("<a/>" = "<a/>" →
      (main wBasic argsLintW).exitOk = true ∧ (main wBasic argsLintW).errMsg = none) ∧
    ("<a/>" ≠ "<a/>" →
      (main wBasic argsLintW).exitOk = false ∧
      (main wBasic argsLintW).errMsg =
        some ["xml-pretty --lint failed for document " ++ lintIdent (some "a.xml")]) :=
  lint_mode_exact_compare_never_writes wBasic argsLintW (some "a.xml") (some "out.xml")
    "<a/>" "<a/>" rfl rfl rfl rfl

/-- C2: Each of the two usage conditions — no positional path while stdin is
an interactive terminal, and `--replace` with stdin as the input source —
prints a diagnostic to stderr and exits with a success code, before any file
handle is opened or any stream is read; no document is processed and no
output is produced. -/
theorem usage_conditions_early_success_exit {Doc : Type} (w : World Doc) (args : Args)
    (hnopath : args.xml_document_path = none) :
    (w.stdin_is_terminal = true →
      main w args = { Outcome.clean with stderrLines :=
        ["ERROR: No XML document provided.", "Run with -h for usage information."] }) ∧
    (w.stdin_is_terminal = false → args.is_replace = true →
      main w args = { Outcome.clean with stderrLines :=
        ["ERROR: cannot replace 'file' when provided stdin data."] }) := by
  constructor
  · intro hterm
    simp [main, resolveInput, hnopath, hterm]
  · intro hterm hrep
    simp [main, resolveInput, resolveOutput, hnopath, hterm, hrep]

/-- C2 witness: no positional path, stdin an interactive terminal, `--replace`
set: the first usage condition fires with the no-document diagnostic. -/
theorem usage_conditions_early_success_exit_witness :
    (wTerm.stdin_is_terminal = true →
      main wTerm argsUsageW = { Outcome.clean with stderrLines :=
        ["ERROR: No XML document provided.", "Run with -h for usage information."] }) ∧
    (wTerm.stdin_is_terminal = false → argsUsageW.is_replace = true →
      main wTerm argsUsageW = { Outcome.clean with stderrLines :=
        ["ERROR: cannot replace 'file' when provided stdin data."] }) :=
  usage_conditions_early_success_exit wTerm argsUsageW rfl

/-- C3: When both `--replace` and `--output-path` are given with a file input,
replace wins: the resolved output destination is the input file path, whatever
`--output-path` held. -/
theorem replace_wins_over_output_path (args : Args) (p : String)
    (hrep : args.is_replace = true) :
    resolveOutput args (some p) = Except.ok (some p) := by
  simp [resolveOutput, hrep]

/-- C3 witness: `--replace` with `--output-path other.xml` on input `in.xml`
resolves the destination to `in.xml`. -/
theorem replace_wins_over_output_path_witness :
    resolveOutput argsReplaceW (some "in.xml") = Except.ok (some "in.xml") :=
  replace_wins_over_output_path argsReplaceW "in.xml" rfl

/-- C4: On any fatal acquisition error (file open failure, file or stream
read failure, parse failure) the invocation aborts with a failure outcome
whose outermost error context names the input identity (the file path, or
stdin), and no output destination is written — there is no partial output. -/
theorem fatal_error_aborts_without_output {Doc : Type} (w : World Doc) (args : Args)
    (ip op : Option String) (e : List String)
    (hin : resolveInput w args = Except.ok ip)
    (hout : resolveOutput args ip = Except.ok op)
    (hacq : acquire w args ip = Except.error e) :
    (main w args).exitOk = false ∧
    (main w args).fileWrites = [] ∧
    (main w args).stdoutText = none ∧
    (main w args).errMsg = some (errCtx ip :: e) ∧
    (∀ p, ip = some p → errCtx ip = "Failed to prettify '" ++ p ++ "'") ∧
    (ip = none → errCtx ip = "Failed to prettify from stdin") := by
  have hmain : main w args =
      { Outcome.clean with
        exitOk := false
        errMsg := some (errCtx ip :: e)
        opens := opensFor ip
        stdinWasRead := ip.isNone } := by
    simp only [main, hin, hout, hacq]
  rw [hmain]
  refine ⟨rfl, rfl, rfl, rfl, ?_, ?_⟩
  · intro p hp
    rw [hp]
    rfl
  · intro hp
    rw [hp]
    rfl

/-- C4 witness: format run on a missing file aborts with the path in the
outermost error context and writes nothing. -/
theorem fatal_error_aborts_without_output_witness :
    (main wBasic argsMissingW).exitOk = false ∧
    (main wBasic argsMissingW).fileWrites = [] ∧
    (main wBasic argsMissingW).stdoutText = none ∧
    (main wBasic argsMissingW).errMsg =
      some (errCtx (some "missing.xml") :: ["io error opening file"]) ∧
    (∀ p, some "missing.xml" = some p →
      errCtx (some "missing.xml") = "Failed to prettify '" ++ p ++ "'") ∧
    (some "missing.xml" = (none : Option String) →
      errCtx (some "missing.xml") = "Failed to prettify from stdin") :=
  fatal_error_aborts_without_output wBasic argsMissingW (some "missing.xml") none
    ["io error opening file"] rfl rfl rfl

/-- C5: In format mode exactly one delivery path is taken: with a resolved
output path the rendered text is written as the complete contents of that
path (and nothing goes to stdout); with no resolved path the rendered text
followed by a newline goes to stdout (and no file is written). -/
theorem format_mode_single_delivery {Doc : Type} (w : World Doc) (args : Args)
    (ip op : Option String) (f o : String)
    (hlint : args.lint_mode = false)
    (hin : resolveInput w args = Except.ok ip)
    (hout : resolveOutput args ip = Except.ok op)
    (hacq : acquire w args ip = Except.ok (f, o)) :
    (∀ q, op = some q → w.fsWriteOk q = true →
      (main w args).fileWrites = [(q, f)] ∧ (main w args).stdoutText = none) ∧
    (op = none →
      (main w args).stdoutText = some (f ++ "\n") ∧ (main w args).fileWrites = []) := by
  have hmain : main w args = finish w args ip op f o := by
    simp only [main, hin, hout, hacq]
  rw [hmain]
  constructor
  · intro q hq hw
    subst hq
    simp [finish, hlint, hw, Outcome.clean]
  · intro hq
    subst hq
    simp [finish, hlint, Outcome.clean]

/-- C5 witness: format run on `in.xml` with `--output-path out.xml` under the
constant-render collaborator writes the rendered text to `out.xml` and prints
nothing. -/
theorem format_mode_single_delivery_witness :
    (∀ q, some "out.xml" = some q → wConst.fsWriteOk q = true →
      (main wConst argsFmtW).fileWrites = [(q, "<c/>")] ∧
      (main wConst argsFmtW).stdoutText = none) ∧
    (some "out.xml" = (none : Option String) →
      (main wConst argsFmtW).stdoutText = some ("<c/>" ++ "\n") ∧
      (main wConst argsFmtW).fileWrites = []) :=
  format_mode_single_delivery wConst argsFmtW (some "in.xml") (some "out.xml")
    "<c/>" "<raw>" rfl rfl rfl rfl

/-- C6: With the formatting options absent, the configuration handed to the
renderer has indent 2, end pad 1, max line length 120, entity mode Standard
or Hex according to the flag, and text-node indentation as resolved; each
supplied option independently overrides its default, and `prettify` passes
exactly this configuration to the renderer. -/
theorem renderer_config_defaults_and_overrides :
    (∀ hex ti : Bool, configFor none none none hex ti =
      { indent := 2, end_pad := 1, max_line_length := 120,
        entity_mode := if hex then EntityMode.Hex else EntityMode.Standard,
        indent_text_nodes := ti }) ∧
    (∀ (i e m : Option Nat) (hex ti : Bool),
      (configFor i e m hex ti).indent = i.getD 2 ∧
      (configFor i e m hex ti).end_pad = e.getD 1 ∧
      (configFor i e m hex ti).max_line_length = m.getD 120 ∧
      (configFor i e m hex ti).entity_mode =
        (if hex then EntityMode.Hex else EntityMode.Standard) ∧
      (configFor i e m hex ti).indent_text_nodes = ti) ∧
    (∀ (Doc : Type) (w : World Doc) (d : Doc) (i e m : Option Nat) (hex ti : Bool),
      prettify w d i e m hex ti = w.render (configFor i e m hex ti) d) ∧
    (∀ (Doc : Type) (w : World Doc) (args : Args) (ip : Option String),
      acquire w args ip =
        match ip with
        | some p =>
          prettify_file w p args.indent args.end_pad args.max_line_length
            args.uses_hex_entities (!args.is_no_text_indent)
        | none =>
          prettify_stdin w args.indent args.end_pad args.max_line_length
            args.uses_hex_entities (!args.is_no_text_indent)) := by
  refine ⟨fun hex ti => rfl, fun i e m hex ti => ⟨rfl, rfl, rfl, rfl, rfl⟩,
    fun Doc w d i e m hex ti => rfl, fun Doc w args ip => rfl⟩

/-- C7 counterexample: supplying `-l 0` makes the invocation proceed to
rendering with `max_line_length = 0` handed to the renderer — the probe
renderer observes the zero and the run still succeeds, refuting the claim
that every configuration reaching the renderer has a strictly positive max
line length. -/
theorem max_line_length_zero_reaches_renderer :
    (configFor none none (some 0) false true).max_line_length = 0 ∧
    (main wProbe argsZeroW).exitOk = true ∧
    (main wProbe argsZeroW).stdoutText = some ("mll-zero" ++ "\n") :=
  ⟨rfl, rfl, rfl⟩

/-- C7 amended: the max line length handed to the renderer is the supplied
`-l` value when present (which may be 0) and 120 when absent; it is strictly
positive exactly when every supplied value is positive, in particular
whenever `-l` is absent or nonzero. -/
theorem max_line_length_positive_iff_supplied_positive
    (i e m : Option Nat) (hex ti : Bool) :
    (configFor i e m hex ti).max_line_length = m.getD 120 ∧
    (0 < (configFor i e m hex ti).max_line_length ↔ ∀ k, m = some k → 0 < k) := by
  refine ⟨rfl, ?_⟩
  have hmll : (configFor i e m hex ti).max_line_length = m.getD 120 := rfl
  rw [hmll]
  cases m with
  | none => simp
  | some k => simp

/-- C8: formatting a document and then running lint mode on the formatted
result with the same configuration reports a pass.  The collaborator's parse
and render are abstract; the hypothesis that re-parsing and re-rendering the
formatted text reproduces it (the spec's render/parse stability of the
collaborator) is what makes the lint comparison succeed: the orchestration
compares exactly the re-rendered text with the file's bytes, so the file
route introduces no discrepancy of its own. -/
theorem lint_after_format_passes {Doc : Type} (w1 w2 : World Doc) (args1 args2 : Args)
    (q p F : String) (d1 : Doc)
    (hfmt : (main w1 args1).fileWrites = [(q, F)])
    (hargs2 : args2.lint_mode = true)
    (hpath : args2.xml_document_path = some p)
    (hopen : w2.fsOpen p = some F)
    (hread : w2.fsRead p = some F)
    (hparse : w2.parse F = some d1)
    (hstable : w2.render
      (configFor args2.indent args2.end_pad args2.max_line_length
        args2.uses_hex_entities (!args2.is_no_text_indent)) d1 = F) :
    (main w2 args2).exitOk = true ∧ (main w2 args2).errMsg = none ∧
    (main w2 args2).fileWrites = [] ∧ (main w2 args2).stdoutText = none := by
  have hin : resolveInput w2 args2 = Except.ok (some p) := by
    simp [resolveInput, hpath]
  have hacq : acquire w2 args2 (some p) = Except.ok (F, F) := by
    simp [acquire, prettify_file, hopen, hread, hparse, prettify, hstable]
  have hex : ∃ op, resolveOutput args2 (some p) = Except.ok op := by
    by_cases h : args2.is_replace = true
    · exact ⟨some p, by simp [resolveOutput, h]⟩
    · exact ⟨args2.output_path, by simp [resolveOutput, h]⟩
  obtain ⟨op, hout⟩ := hex
  have hmain : main w2 args2 = finish w2 args2 (some p) op F F := by
    simp only [main, hin, hout, hacq]
  rw [hmain]
  simp [finish, hargs2, Outcome.clean]

/-- C8 witness: under the constant-render collaborator, a format run writes
`<c/>` to `out.xml`, and a lint run on `out.xml` with the same configuration
passes. -/
theorem lint_after_format_passes_witness :
    (main wConst argsLintOutW).exitOk = true ∧
    (main wConst argsLintOutW).errMsg = none ∧
    (main wConst argsLintOutW).fileWrites = [] ∧
    (main wConst argsLintOutW).stdoutText = none :=
  lint_after_format_passes wConst wConst argsFmtW argsLintOutW "out.xml" "out.xml"
    "<c/>" "<c/>" rfl rfl rfl rfl rfl rfl rfl

/-- C9: a successful file acquisition parses the contents obtained through
the `File::open` handle while retaining, as the lint-comparison original, the
contents obtained by an independent `read_to_string` of the same path; a
successful stdin acquisition uses one buffer both as parser input and as the
retained original. -/
theorem acquisition_reads_sources {Doc : Type} (w : World Doc) (p : String)
    (i e m : Option Nat) (hex ti : Bool) (f o g b : String)
    (hfile : prettify_file w p i e m hex ti = Except.ok (f, o))
    (hstdin : prettify_stdin w i e m hex ti = Except.ok (g, b)) :
    (w.fsRead p = some o ∧
      ∃ s d, w.fsOpen p = some s ∧ w.parse s = some d ∧
        f = w.render (configFor i e m hex ti) d) ∧
    (w.stdinRead = some b ∧
      ∃ d, w.parse b = some d ∧ g = w.render (configFor i e m hex ti) d) := by
  constructor
  · unfold prettify_file at hfile
    cases h1 : w.fsOpen p with
    | none => simp [h1] at hfile
    | some s =>
      simp only [h1] at hfile
      cases h2 : w.fsRead p with
      | none => simp [h2] at hfile
      | some c =>
        simp only [h2] at hfile
        cases h3 : w.parse s with
        | none => simp [h3] at hfile
        | some d =>
          simp only [h3, Except.ok.injEq, Prod.mk.injEq] at hfile
          obtain ⟨hf, hc⟩ := hfile
          subst hc
          exact ⟨rfl, s, d, rfl, h3, hf.symm⟩
  · unfold prettify_stdin at hstdin
    cases h1 : w.stdinRead with
    | none => simp [h1] at hstdin
    | some buf =>
      simp only [h1] at hstdin
      cases h2 : w.parse buf with
      | none => simp [h2] at hstdin
      | some d =>
        simp only [h2, Except.ok.injEq, Prod.mk.injEq] at hstdin
        obtain ⟨hg, hb⟩ := hstdin
        subst hb
        exact ⟨rfl, d, h2, hg.symm⟩

/-- C9 witness: with the identity collaborator, the file acquisition of
`a.xml` and a stdin acquisition both succeed, with the stated sources. -/
theorem acquisition_reads_sources_witness :
    (wBasic.fsRead "a.xml" = some "<a/>" ∧
      ∃ s d, wBasic.fsOpen "a.xml" = some s ∧ wBasic.parse s = some d ∧
        "<a/>" = wBasic.render (configFor none none none false true) d) ∧
    (wBasic.stdinRead = some "<a/>" ∧
      ∃ d, wBasic.parse "<a/>" = some d ∧
        "<a/>" = wBasic.render (configFor none none none false true) d) :=
  acquisition_reads_sources wBasic "a.xml" none none none false true
    "<a/>" "<a/>" "<a/>" "<a/>" rfl rfl

/-- C10: in format mode with a resolved output path, the destination is
written unconditionally — even when the rendered text equals the original
input text, as under `--replace` on an already-normalized file. -/
theorem output_written_even_when_unchanged {Doc : Type} (w : World Doc) (args : Args)
    (ip : Option String) (q f o : String)
    (hlint : args.lint_mode = false)
    (hin : resolveInput w args = Except.ok ip)
    (hout : resolveOutput args ip = Except.ok (some q))
    (hacq : acquire w args ip = Except.ok (f, o))
    (heq : f = o)
    (hw : w.fsWriteOk q = true) :
    (main w args).fileWrites = [(q, f)] := by
  have hmain : main w args = finish w args ip (some q) f o := by
    simp only [main, hin, hout, hacq]
  rw [hmain]
  simp [finish, hlint, hw, Outcome.clean]

/-- C10 witness: `--replace` on `a.xml` under the identity collaborator
(rendered text equal to the original) still rewrites `a.xml`. -/
theorem output_written_even_when_unchanged_witness :
    (main wBasic argsReplRunW).fileWrites = [("a.xml", "<a/>")] :=
  output_written_even_when_unchanged wBasic argsReplRunW (some "a.xml") "a.xml"
    "<a/>" "<a/>" rfl rfl rfl rfl rfl rfl

end XmlPretty
